import Mathlib

/-!
Shallow embedding of the configuration subsystem of the wails-template
repository: the INI-backed loader (`LoadConfig`, `ReloadConfig`,
`GetConfig`, `GetPublicConfig` and the per-section `load*Config` helpers),
the structural validator driven by the struct tags on the `Config` types,
the environment/security policy validators, and the security-default
injection (`applySecurityDefaults`, `GenerateSecureSecret`).

Machine integers (`time.Duration` is a 64-bit signed count of
nanoseconds) are modelled as `Int` with explicit two's-complement
wrap-around where the Go code can overflow.
-/

set_option maxRecDepth 8000

namespace WailsCfg

/-! ### Go integer primitives -/

/-- Two's-complement wrap-around of a 64-bit signed integer, as Go
multiplication/addition on `int64` behaves. -/
def wrap64 (n : Int) : Int :=
  (n + 2 ^ 63) % 2 ^ 64 - 2 ^ 63

/-- Numeric value of a list of ASCII digit characters
(most significant first). -/
def digitsVal (ds : List Char) : Nat :=
  ds.foldl (fun a c => a * 10 + (c.toNat - 48)) 0

/-- `strconv.Atoi` / `strconv.ParseInt(s, 10, 64)`: optional sign followed
by a nonempty run of decimal digits; out-of-range values are an error
(`none`).  (The `base 0` prefix forms `0x`/`0o`/`0b`/underscores that
go-ini's `Key.Int` would additionally accept are not exercised by this
configuration schema and are not modelled.) -/
def goAtoi (s : String) : Option Int :=
  match s.toList with
  | [] => none
  | c :: rest =>
    let (neg, ds) :=
      if c = '-' then (true, rest)
      else if c = '+' then (false, rest)
      else (false, c :: rest)
    if ds.isEmpty then none
    else if ds.all Char.isDigit then
      let n : Int := (digitsVal ds : Nat)
      if neg then
        if n ≤ 2 ^ 63 then some (-n) else none
      else
        if n ≤ 2 ^ 63 - 1 then some n else none
    else none

/-- go-ini's `parseBool`: the exact token sets it accepts. -/
def goParseBool (s : String) : Option Bool :=
  if s = "1" ∨ s = "t" ∨ s = "T" ∨ s = "true" ∨ s = "TRUE" ∨ s = "True" ∨
     s = "YES" ∨ s = "yes" ∨ s = "Yes" ∨ s = "y" ∨ s = "ON" ∨ s = "on" ∨ s = "On" then
    some true
  else if s = "0" ∨ s = "f" ∨ s = "F" ∨ s = "false" ∨ s = "FALSE" ∨ s = "False" ∨
     s = "NO" ∨ s = "no" ∨ s = "No" ∨ s = "n" ∨ s = "OFF" ∨ s = "off" ∨ s = "Off" then
    some false
  else none

/-- The white-space set of `unicode.IsSpace` restricted to the Latin-1
range (the full set also has some higher code points never produced by
this configuration schema). -/
def goIsSpace (c : Char) : Bool :=
  c = ' ' ∨ c = '\t' ∨ c = '\n' ∨ c = (Char.ofNat 11) ∨ c = (Char.ofNat 12) ∨
  c = '\r' ∨ c = (Char.ofNat 0x85) ∨ c = (Char.ofNat 0xA0)

/-- `strings.TrimSpace`. -/
def goTrimSpace (s : String) : String :=
  String.mk (((s.toList.dropWhile goIsSpace).reverse.dropWhile goIsSpace).reverse)

/-- `strings.Contains s sub`. -/
def goContains (s sub : String) : Bool :=
  decide (List.IsInfix sub.toList s.toList)

/-- `strings.HasPrefix s pre`. -/
def goHasPrefix (s pre : String) : Bool :=
  pre.toList.isPrefixOf s.toList

/-- Split on a one-character separator, keeping empty pieces
(`strings.Split s sep` for the single-character separators used here:
splitting the empty string gives one empty piece). -/
def splitCharAux (sep : Char) : List Char → List Char → List (List Char)
  | [], acc => [acc.reverse]
  | c :: rest, acc =>
    if c = sep then acc.reverse :: splitCharAux sep rest []
    else splitCharAux sep rest (c :: acc)

/-- `strings.Split s (String.mk [sep])`. -/
def goSplit (sep : Char) (s : String) : List String :=
  (splitCharAux sep s.toList []).map String.mk

/-! ### `time.ParseDuration` -/

/-- Nanoseconds per unit: `time.Second` and friends. -/
def nsPerSecond : Nat := 1000000000

def nsPerMinute : Nat := 60 * nsPerSecond

def nsPerHour : Nat := 60 * nsPerMinute

/-- `time.ParseDuration`'s `unitMap` (the two non-ASCII spellings of
microseconds are omitted; nothing in this repository uses them). -/
def unitVal (u : List Char) : Option Nat :=
  if u = ['n', 's'] then some 1
  else if u = ['u', 's'] then some 1000
  else if u = ['m', 's'] then some 1000000
  else if u = ['s'] then some nsPerSecond
  else if u = ['m'] then some nsPerMinute
  else if u = ['h'] then some nsPerHour
  else none

/-- `time`'s `leadingInt`: consume leading decimal digits into an
accumulator, failing on 64-bit overflow exactly where the Go code does. -/
def leadingInt : List Char → Nat → Option (Nat × List Char)
  | [], x => some (x, [])
  | c :: rest, x =>
    if c.isDigit then
      if x > 2 ^ 63 / 10 - 1 then none
      else
        let x' := x * 10 + (c.toNat - 48)
        if x' > 2 ^ 63 then none
        else leadingInt rest x'
    else some (x, c :: rest)

/-- `time`'s `leadingFraction`: digits after the decimal point, with the
scale they represent; on overflow further digits are dropped. -/
def leadingFraction : List Char → Nat → Nat → Bool → (Nat × Nat × List Char)
  | [], x, scale, _ => (x, scale, [])
  | c :: rest, x, scale, overflow =>
    if c.isDigit then
      if overflow then leadingFraction rest x scale true
      else if x > (2 ^ 63 - 1) / 10 then leadingFraction rest x scale true
      else
        let y := x * 10 + (c.toNat - 48)
        if y > 2 ^ 63 then leadingFraction rest x scale true
        else leadingFraction rest y (scale * 10) false
    else (x, scale, c :: rest)

/-- One `v*unit (+ fraction)` term of a duration.  Go computes the
fractional contribution in `float64`; this model uses exact natural
division, which agrees on every input without a fractional part (no
fractional duration appears in this repository's configuration). -/
def durationTerm (v f scale unit : Nat) : Option Nat :=
  if v > 2 ^ 63 / unit then none
  else
    let v' := v * unit
    if f > 0 then
      let v'' := v' + f * unit / scale
      if v'' > 2 ^ 63 then none else some v''
    else some v'

/-- The optional fractional part after the integer digits:
`(f, scale, remainder, post)` where `post` records whether fraction
digits were consumed. -/
def fractionPart : List Char → Nat × Nat × List Char × Bool
  | '.' :: tail =>
    let (f, sc, rem) := leadingFraction tail 0 1 false
    (f, sc, rem, (rem.length != tail.length : Bool))
  | s1 => (0, 1, s1, false)

/-- Split the unit name (the run of non-digit, non-period characters)
from what follows it. -/
def unitSplit (s2 : List Char) : List Char × List Char :=
  (s2.takeWhile (fun c => ¬ (c = '.' ∨ c.isDigit)),
   s2.dropWhile (fun c => ¬ (c = '.' ∨ c.isDigit)))

/-- The per-term loop of `time.ParseDuration`, with fuel (each iteration
consumes at least the unit character). -/
def parseDurationLoop : Nat → List Char → Nat → Option Nat
  | 0, _, _ => none
  | fuel + 1, s, d =>
    match s with
    | [] => some d
    | c :: _ =>
      if ¬ (c = '.' ∨ c.isDigit) then none
      else
        match leadingInt s 0 with
        | none => none
        | some (v, s1) =>
          let pre : Bool := s1.length != s.length
          let fp := fractionPart s1
          if !pre && !fp.2.2.2 then none
          else
            let us := unitSplit fp.2.2.1
            if us.1.isEmpty then none
            else
              match unitVal us.1 with
              | none => none
              | some unit =>
                match durationTerm v fp.1 fp.2.1 unit with
                | none => none
                | some v' =>
                  let d' := d + v'
                  if d' > 2 ^ 63 then none
                  else parseDurationLoop fuel us.2 d'

/-- `time.ParseDuration`, returning the signed nanosecond count. -/
def goParseDuration (s : String) : Option Int :=
  let cs := s.toList
  let neg : Bool := cs.head? = some '-'
  let cs1 := if cs.head? = some '-' ∨ cs.head? = some '+' then cs.tail else cs
  if cs1 = ['0'] then some 0
  else if cs1.isEmpty then none
  else
    match parseDurationLoop (cs1.length + 1) cs1 0 with
    | none => none
    | some d =>
      if neg then some (-(d : Int))
      else if d > 2 ^ 63 - 1 then none
      else some (d : Int)

/-! ### Configuration data model (`types.go`) -/

/-- `AppConfig`.  `Environment`, `LogLevel` etc. are string-typed in Go and
kept as `String` here. -/
structure AppConfig where
  environment : String
  name : String
  version : String
  debug : Bool
  hotReload : Bool
  devTools : Bool
  mockAPI : Bool
  deriving Repr, DecidableEq

/-- `APIConfig`; durations are int64 nanosecond counts. -/
structure APIConfig where
  baseURL : String
  timeout : Int
  retryCount : Int
  retryDelay : Int
  userAgent : String
  maxIdleConn : Int
  deriving Repr, DecidableEq

/-- `AuthConfig`. -/
structure AuthConfig where
  tokenExpiry : Int
  refreshThreshold : Int
  maxLoginAttempts : Int
  lockoutDuration : Int
  sessionTimeout : Int
  rememberMeDuration : Int
  deriving Repr, DecidableEq

/-- `LogConfig`. -/
structure LogConfig where
  level : String
  format : String
  output : String
  filePath : String
  maxSize : Int
  maxBackups : Int
  maxAge : Int
  compress : Bool
  deriving Repr, DecidableEq

/-- `DatabaseConfig`. -/
structure DatabaseConfig where
  host : String
  port : Int
  name : String
  username : String
  password : String
  sslMode : String
  maxOpenConns : Int
  maxIdleConns : Int
  connLifetime : Int
  deriving Repr, DecidableEq

/-- `SecurityConfig`. -/
structure SecurityConfig where
  corsEnabled : Bool
  corsOrigins : List String
  rateLimitEnabled : Bool
  rateLimitRPS : Int
  rateLimitBurst : Int
  csrfEnabled : Bool
  csrfSecret : String
  deriving Repr, DecidableEq

/-- `WindowConfig`. -/
structure WindowConfig where
  width : Int
  height : Int
  resizable : Bool
  fullscreen : Bool
  maximized : Bool
  minimized : Bool
  alwaysOnTop : Bool
  deriving Repr, DecidableEq

/-- `CacheConfig`. -/
structure CacheConfig where
  enabled : Bool
  ttl : Int
  maxSize : Int
  maxItems : Int
  compressionEnabled : Bool
  evictionPolicy : String
  deriving Repr, DecidableEq

/-- `Config`: the root aggregate. -/
structure Config where
  app : AppConfig
  api : APIConfig
  auth : AuthConfig
  log : LogConfig
  database : DatabaseConfig
  security : SecurityConfig
  window : WindowConfig
  cache : CacheConfig
  deriving Repr, DecidableEq

/-- `PublicAppConfig`. -/
structure PublicAppConfig where
  environment : String
  name : String
  version : String
  debug : Bool
  deriving Repr, DecidableEq

/-- `PublicAPIConfig`. -/
structure PublicAPIConfig where
  timeout : Int
  retryCount : Int
  deriving Repr, DecidableEq

/-- `PublicWindowConfig`. -/
structure PublicWindowConfig where
  width : Int
  height : Int
  resizable : Bool
  fullscreen : Bool
  deriving Repr, DecidableEq

/-- `PublicConfig`: the projection safe for the frontend. -/
structure PublicConfig where
  app : PublicAppConfig
  api : PublicAPIConfig
  window : PublicWindowConfig
  deriving Repr, DecidableEq

/-! ### The INI source and the typed accessors -/

/-- The parsed INI file: a list of (section, key, value) triples.
go-ini auto-creates empty sections and keys, so a missing entry reads as
the empty string. -/
def Ini : Type := List (String × String × String)

/-- The string value of `section.key`, `""` when absent
(`Section(section).Key(key).String()`). -/
def iniString (src : Ini) (sect key : String) : String :=
  match List.find? (fun e => e.1 = sect ∧ e.2.1 = key) src with
  | some e => e.2.2
  | none => ""

/-- `getConfigValue`: `MustString(defaultValue)` returns the default
exactly when the stored value is empty. -/
def getConfigValue (src : Ini) (sect key defaultValue : String) : String :=
  let v := iniString src sect key
  if v = "" then defaultValue else v

/-- `getConfigInt`: `MustInt(defaultValue)` falls back to the default when
the value does not parse as an integer. -/
def getConfigInt (src : Ini) (sect key : String) (defaultValue : Int) : Int :=
  match goAtoi (iniString src sect key) with
  | some n => n
  | none => defaultValue

/-- `getConfigBool`: `MustBool(defaultValue)`. -/
def getConfigBool (src : Ini) (sect key : String) (defaultValue : Bool) : Bool :=
  match goParseBool (iniString src sect key) with
  | some b => b
  | none => defaultValue

/-- The value-to-duration resolution inside `getConfigDuration`
(part_005 lines 279-292): empty value defaults; then
`time.ParseDuration`; then bare integer seconds (the Go multiplication
`time.Duration(seconds) * time.Second` wraps on 64-bit overflow); else
default. -/
def resolveDuration (value : String) (defaultValue : Int) : Int :=
  if value = "" then defaultValue
  else
    match goParseDuration value with
    | some d => d
    | none =>
      match goAtoi value with
      | some seconds => wrap64 (seconds * (nsPerSecond : Int))
      | none => defaultValue

/-- `getConfigDuration`. -/
def getConfigDuration (src : Ini) (sect key : String) (defaultValue : Int) : Int :=
  resolveDuration (iniString src sect key) defaultValue

/-! ### Per-section loaders (`load*Config`) -/

/-- `loadAppConfig`; `appEnv` is the value of `os.Getenv("APP_ENV")`
(empty when unset). -/
def loadAppConfig (appEnv : String) (src : Ini) : AppConfig :=
  let env := if appEnv = "" then getConfigValue src "app" "environment" "development" else appEnv
  { environment := env
    name := getConfigValue src "app" "name" "CSmart Wails App"
    version := getConfigValue src "app" "version" "1.0.0"
    debug := getConfigBool src "app" "debug" true
    hotReload := getConfigBool src "development" "hot_reload" true
    devTools := getConfigBool src "development" "dev_tools" true
    mockAPI := getConfigBool src "development" "mock_api" false }

/-- `loadAPIConfig`. -/
def loadAPIConfig (src : Ini) : APIConfig :=
  { baseURL := getConfigValue src "api" "base_url" ""
    timeout := getConfigDuration src "api" "timeout" (30 * nsPerSecond)
    retryCount := getConfigInt src "api" "retry_count" 3
    retryDelay := getConfigDuration src "api" "retry_delay" (1 * nsPerSecond)
    userAgent := getConfigValue src "api" "user_agent" "CSmart-Wails/1.0"
    maxIdleConn := getConfigInt src "api" "max_idle_conn" 10 }

/-- `loadAuthConfig`. -/
def loadAuthConfig (src : Ini) : AuthConfig :=
  { tokenExpiry := getConfigDuration src "auth" "token_expiry" (3600 * nsPerSecond)
    refreshThreshold := getConfigDuration src "auth" "refresh_threshold" (300 * nsPerSecond)
    maxLoginAttempts := getConfigInt src "auth" "max_login_attempts" 5
    lockoutDuration := getConfigDuration src "auth" "lockout_duration" (15 * nsPerMinute)
    sessionTimeout := getConfigDuration src "auth" "session_timeout" (24 * nsPerHour)
    rememberMeDuration := getConfigDuration src "auth" "remember_me_duration" (30 * 24 * nsPerHour) }

/-- `loadLogConfig`. -/
def loadLogConfig (src : Ini) : LogConfig :=
  { level := getConfigValue src "log" "level" "debug"
    format := getConfigValue src "log" "format" "json"
    output := getConfigValue src "log" "output" "console"
    filePath := getConfigValue src "log" "file_path" "logs/app.log"
    maxSize := getConfigInt src "log" "max_size" 100
    maxBackups := getConfigInt src "log" "max_backups" 3
    maxAge := getConfigInt src "log" "max_age" 28
    compress := getConfigBool src "log" "compress" true }

/-- `loadDatabaseConfig`. -/
def loadDatabaseConfig (src : Ini) : DatabaseConfig :=
  { host := getConfigValue src "database" "host" "localhost"
    port := getConfigInt src "database" "port" 5432
    name := getConfigValue src "database" "name" "csmart"
    username := getConfigValue src "database" "username" ""
    password := getConfigValue src "database" "password" ""
    sslMode := getConfigValue src "database" "ssl_mode" "disable"
    maxOpenConns := getConfigInt src "database" "max_open_conns" 25
    maxIdleConns := getConfigInt src "database" "max_idle_conns" 5
    connLifetime := getConfigDuration src "database" "conn_lifetime" (5 * nsPerMinute) }

/-- `loadSecurityConfig`: comma-split and per-element trim of
`cors_origins`, with the empty string producing the empty list. -/
def loadSecurityConfig (src : Ini) : SecurityConfig :=
  let corsOrigins := getConfigValue src "security" "cors_origins" ""
  let origins : List String :=
    if corsOrigins ≠ "" then (goSplit ',' corsOrigins).map goTrimSpace
    else []
  { corsEnabled := getConfigBool src "security" "cors_enabled" true
    corsOrigins := origins
    rateLimitEnabled := getConfigBool src "security" "rate_limit_enabled" false
    rateLimitRPS := getConfigInt src "security" "rate_limit_rps" 100
    rateLimitBurst := getConfigInt src "security" "rate_limit_burst" 200
    csrfEnabled := getConfigBool src "security" "csrf_enabled" false
    csrfSecret := getConfigValue src "security" "csrf_secret" "" }

/-- `loadWindowConfig`. -/
def loadWindowConfig (src : Ini) : WindowConfig :=
  { width := getConfigInt src "window" "width" 1200
    height := getConfigInt src "window" "height" 800
    resizable := getConfigBool src "window" "resizable" true
    fullscreen := getConfigBool src "window" "fullscreen" false
    maximized := getConfigBool src "window" "maximized" false
    minimized := getConfigBool src "window" "minimized" false
    alwaysOnTop := getConfigBool src "window" "always_on_top" false }

/-- `loadCacheConfig`. -/
def loadCacheConfig (src : Ini) : CacheConfig :=
  { enabled := getConfigBool src "cache" "enabled" false
    ttl := getConfigDuration src "cache" "ttl" (3600 * nsPerSecond)
    maxSize := getConfigInt src "cache" "max_size" 100
    maxItems := getConfigInt src "cache" "max_items" 10000
    compressionEnabled := getConfigBool src "cache" "compression_enabled" false
    evictionPolicy := getConfigValue src "cache" "eviction_policy" "lru" }

/-- The `config := &Config{...}` construction in `LoadConfig`. -/
def buildConfig (appEnv : String) (src : Ini) : Config :=
  { app := loadAppConfig appEnv src
    api := loadAPIConfig src
    auth := loadAuthConfig src
    log := loadLogConfig src
    database := loadDatabaseConfig src
    security := loadSecurityConfig src
    window := loadWindowConfig src
    cache := loadCacheConfig src }

/-! ### Structural validation (`validate.Struct` over the struct tags) -/

/-- Split off the scheme before the first `:` (`net/url`). -/
def schemeSplit : List Char → List Char → Option (List Char × List Char)
  | acc, ':' :: rest => some (acc.reverse, rest)
  | acc, c :: rest => schemeSplit (c :: acc) rest
  | _, [] => none

/-- A valid URL scheme: alphabetic first character, then
letters/digits/`+`/`-`/`.` (`net/url`). -/
def validScheme (cs : List Char) : Bool :=
  match cs with
  | [] => false
  | c :: rest => c.isAlpha && rest.all (fun d => d.isAlpha || d.isDigit || d = '+' || d = '-' || d = '.')

/-- Model of the go-playground/validator v10 `url` tag (`url.Parse`
succeeding with a nonempty `Scheme` and a nonempty
`Host`/`Fragment`/`Opaque`), restricted to the hierarchical
`scheme://host...` shape that every URL in this repository's
configuration takes: accepted exactly when the string is
`scheme "://" authority ...` with a valid nonempty scheme and a nonempty
authority component. -/
def isURL (s : String) : Bool :=
  match schemeSplit [] s.toList with
  | none => false
  | some (scheme, rest) =>
    validScheme scheme &&
    (match rest with
     | '/' :: '/' :: tail => !(tail.takeWhile (fun c => c ≠ '/' ∧ c ≠ '?' ∧ c ≠ '#')).isEmpty
     | _ => false)

/-- The custom `semver` validator: exactly three `.`-separated components,
each parsing with `strconv.Atoi`. -/
def validateSemver (version : String) : Bool :=
  let parts := goSplit '.' version
  parts.length = 3 && parts.all (fun p => (goAtoi p).isSome)

/-- The per-field tag evaluation of validator v10: tags run in order and
the first failing tag yields the field's single finding. -/
def firstFailure (path : String) (checks : List (String × Bool)) : List (String × String) :=
  match checks.find? (fun c => c.2 = false) with
  | some c => [(path, c.1)]
  | none => []

/-- `validate.Struct(config)`: every tagged field of every section, in
declaration order, producing one `(field path, failed tag)` finding per
invalid field.  String `min`/`max` count characters; durations compare
against the parsed tag parameter in nanoseconds. -/
def validateConfig (c : Config) : List (String × String) :=
  firstFailure "App.Environment"
    [("required", decide (c.app.environment ≠ "")),
     ("oneof", decide (c.app.environment = "development" ∨ c.app.environment = "staging" ∨
        c.app.environment = "production"))] ++
  firstFailure "App.Name"
    [("required", decide (c.app.name ≠ "")), ("min", decide (1 ≤ c.app.name.length)),
     ("max", decide (c.app.name.length ≤ 100))] ++
  firstFailure "App.Version"
    [("required", decide (c.app.version ≠ "")), ("semver", validateSemver c.app.version)] ++
  firstFailure "API.BaseURL"
    [("required", decide (c.api.baseURL ≠ "")), ("url", isURL c.api.baseURL)] ++
  firstFailure "API.Timeout" [("required", decide (c.api.timeout ≠ 0))] ++
  firstFailure "API.RetryCount"
    [("min", decide (0 ≤ c.api.retryCount)), ("max", decide (c.api.retryCount ≤ 10))] ++
  firstFailure "API.MaxIdleConn"
    [("min", decide (1 ≤ c.api.maxIdleConn)), ("max", decide (c.api.maxIdleConn ≤ 100))] ++
  firstFailure "Auth.TokenExpiry"
    [("required", decide (c.auth.tokenExpiry ≠ 0)),
     ("min", decide (300 * (nsPerSecond : Int) ≤ c.auth.tokenExpiry)),
     ("max", decide (c.auth.tokenExpiry ≤ 86400 * (nsPerSecond : Int)))] ++
  firstFailure "Auth.RefreshThreshold"
    [("required", decide (c.auth.refreshThreshold ≠ 0)),
     ("min", decide (60 * (nsPerSecond : Int) ≤ c.auth.refreshThreshold)),
     ("max", decide (c.auth.refreshThreshold ≤ 3600 * (nsPerSecond : Int)))] ++
  firstFailure "Auth.MaxLoginAttempts"
    [("min", decide (1 ≤ c.auth.maxLoginAttempts)), ("max", decide (c.auth.maxLoginAttempts ≤ 10))] ++
  firstFailure "Auth.LockoutDuration"
    [("min", decide ((nsPerMinute : Int) ≤ c.auth.lockoutDuration)),
     ("max", decide (c.auth.lockoutDuration ≤ 24 * (nsPerHour : Int)))] ++
  firstFailure "Auth.SessionTimeout"
    [("min", decide (5 * (nsPerMinute : Int) ≤ c.auth.sessionTimeout)),
     ("max", decide (c.auth.sessionTimeout ≤ 24 * (nsPerHour : Int)))] ++
  firstFailure "Auth.RememberMeDuration"
    [("min", decide ((nsPerHour : Int) ≤ c.auth.rememberMeDuration)),
     ("max", decide (c.auth.rememberMeDuration ≤ 720 * (nsPerHour : Int)))] ++
  firstFailure "Log.Level"
    [("required", decide (c.log.level ≠ "")),
     ("oneof", decide (c.log.level = "debug" ∨ c.log.level = "info" ∨ c.log.level = "warn" ∨
        c.log.level = "error"))] ++
  firstFailure "Log.Format"
    [("required", decide (c.log.format ≠ "")),
     ("oneof", decide (c.log.format = "json" ∨ c.log.format = "text"))] ++
  firstFailure "Log.Output"
    [("required", decide (c.log.output ≠ "")),
     ("oneof", decide (c.log.output = "console" ∨ c.log.output = "file" ∨ c.log.output = "both"))] ++
  firstFailure "Log.MaxSize"
    [("min", decide (1 ≤ c.log.maxSize)), ("max", decide (c.log.maxSize ≤ 1000))] ++
  firstFailure "Log.MaxBackups"
    [("min", decide (0 ≤ c.log.maxBackups)), ("max", decide (c.log.maxBackups ≤ 100))] ++
  firstFailure "Log.MaxAge"
    [("min", decide (1 ≤ c.log.maxAge)), ("max", decide (c.log.maxAge ≤ 365))] ++
  firstFailure "Database.Host" [("required", decide (c.database.host ≠ ""))] ++
  firstFailure "Database.Port"
    [("required", decide (c.database.port ≠ 0)), ("min", decide (1 ≤ c.database.port)),
     ("max", decide (c.database.port ≤ 65535))] ++
  firstFailure "Database.Name"
    [("required", decide (c.database.name ≠ "")), ("min", decide (1 ≤ c.database.name.length)),
     ("max", decide (c.database.name.length ≤ 100))] ++
  firstFailure "Database.SSLMode"
    [("oneof", decide (c.database.sslMode = "disable" ∨ c.database.sslMode = "require" ∨
        c.database.sslMode = "verify-ca" ∨ c.database.sslMode = "verify-full"))] ++
  firstFailure "Database.MaxOpenConns"
    [("min", decide (1 ≤ c.database.maxOpenConns)), ("max", decide (c.database.maxOpenConns ≤ 100))] ++
  firstFailure "Database.MaxIdleConns"
    [("min", decide (1 ≤ c.database.maxIdleConns)), ("max", decide (c.database.maxIdleConns ≤ 100))] ++
  firstFailure "Database.ConnLifetime"
    [("min", decide ((nsPerMinute : Int) ≤ c.database.connLifetime)),
     ("max", decide (c.database.connLifetime ≤ 24 * (nsPerHour : Int)))] ++
  firstFailure "Security.RateLimitRPS"
    [("min", decide (1 ≤ c.security.rateLimitRPS)), ("max", decide (c.security.rateLimitRPS ≤ 10000))] ++
  firstFailure "Security.RateLimitBurst"
    [("min", decide (1 ≤ c.security.rateLimitBurst)),
     ("max", decide (c.security.rateLimitBurst ≤ 1000))] ++
  firstFailure "Window.Width"
    [("required", decide (c.window.width ≠ 0)), ("min", decide (400 ≤ c.window.width)),
     ("max", decide (c.window.width ≤ 4000))] ++
  firstFailure "Window.Height"
    [("required", decide (c.window.height ≠ 0)), ("min", decide (300 ≤ c.window.height)),
     ("max", decide (c.window.height ≤ 3000))] ++
  firstFailure "Cache.TTL"
    [("min", decide ((nsPerSecond : Int) ≤ c.cache.ttl)),
     ("max", decide (c.cache.ttl ≤ 24 * (nsPerHour : Int)))] ++
  firstFailure "Cache.MaxSize"
    [("min", decide (1 ≤ c.cache.maxSize)), ("max", decide (c.cache.maxSize ≤ 10000))] ++
  firstFailure "Cache.MaxItems"
    [("min", decide (100 ≤ c.cache.maxItems)), ("max", decide (c.cache.maxItems ≤ 1000000))] ++
  firstFailure "Cache.EvictionPolicy"
    [("oneof", decide (c.cache.evictionPolicy = "lru" ∨ c.cache.evictionPolicy = "lfu" ∨
        c.cache.evictionPolicy = "fifo"))]

/-! ### Environment policy validation (`EnvironmentValidator`) -/

/-- `validateDevelopment`. -/
def validateDevelopment (c : Config) : List String :=
  (if c.app.debug = false then ["Debug mode should be enabled in development"] else []) ++
  (if ¬ (goContains c.api.baseURL "localhost" ∨ goContains c.api.baseURL "127.0.0.1" ∨
      goContains c.api.baseURL "test") then
    ["Development should typically use localhost or test API URLs"] else [])

/-- `validateStaging`; `Timeout.Seconds() < 10` compares the nanosecond
count against `10s` (Go goes through `float64`, exact at these
magnitudes). -/
def validateStaging (c : Config) : List String :=
  (if goContains c.api.baseURL "localhost" ∨ goContains c.api.baseURL "127.0.0.1" then
    ["Staging should not use localhost API URLs"] else []) ++
  (if c.api.timeout < 10 * (nsPerSecond : Int) then
    ["API timeout is too low for staging environment"] else [])

/-- `validateProduction`. -/
def validateProduction (c : Config) : List String :=
  (if c.app.debug then ["Debug mode must be disabled in production"] else []) ++
  (if c.app.devTools then ["Dev tools must be disabled in production"] else []) ++
  (if ¬ goHasPrefix c.api.baseURL "https://" then ["Production must use HTTPS API URLs"] else []) ++
  (if c.database.sslMode = "disable" then ["Database SSL must be enabled in production"] else []) ++
  (if c.security.rateLimitEnabled = false then ["Rate limiting should be enabled in production"] else [])

/-- `EnvironmentValidator.ValidateEnvironment`: dispatch on the
environment the validator was constructed with. -/
def validateEnvironment (env : String) (c : Config) : List String :=
  if env = "development" then validateDevelopment c
  else if env = "staging" then validateStaging c
  else if env = "production" then validateProduction c
  else []

/-! ### Security policy validation (`SecurityValidator`) -/

/-- `isValidOrigin`: the regular expression
`^https?://[a-zA-Z0-9.-]+(:[0-9]+)?$`, with `*` always accepted. -/
def isValidOrigin (s : String) : Bool :=
  if s = "*" then true
  else
    let isHostChar := fun (c : Char) => c.isAlpha || c.isDigit || c = '.' || c = '-'
    let afterScheme : Option (List Char) :=
      if goHasPrefix s "https://" then some (s.toList.drop 8)
      else if goHasPrefix s "http://" then some (s.toList.drop 7)
      else none
    match afterScheme with
    | none => false
    | some cs =>
      let host := cs.takeWhile isHostChar
      let rest := cs.dropWhile isHostChar
      !host.isEmpty &&
        (rest.isEmpty ||
          (match rest with
           | ':' :: ds => !ds.isEmpty && ds.all Char.isDigit
           | _ => false))

/-- `validateProductionSecurity`. -/
def validateProductionSecurity (c : Config) : List String :=
  (if c.app.debug then ["Debug mode should be disabled in production"] else []) ++
  (if c.app.devTools then ["Dev tools should be disabled in production"] else []) ++
  (if c.security.corsEnabled then
    (c.security.corsOrigins.filter
      (fun o => goContains o "localhost" ∨ goContains o "127.0.0.1")).map
      (fun _ => "Localhost origins should not be allowed in production")
   else []) ++
  (if c.database.sslMode = "disable" then ["Database SSL should be enabled in production"] else []) ++
  (if c.api.timeout > 60 * (nsPerSecond : Int) then
    ["API timeout is very high for production environment"] else [])

/-- `SecurityValidator.ValidateSecuritySettings`. -/
def validateSecuritySettings (c : Config) : List String :=
  (if c.security.corsEnabled then
    (if c.security.corsOrigins.length = 0 then ["CORS is enabled but no origins are specified"]
     else (c.security.corsOrigins.filter (fun o => isValidOrigin o = false)).map
       (fun o => "Invalid CORS origin: " ++ o))
   else []) ++
  (if c.security.csrfEnabled then
    (if c.security.csrfSecret = "" then ["CSRF is enabled but no secret is provided"]
     else if c.security.csrfSecret.length < 32 then
       ["CSRF secret should be at least 32 characters long"]
     else [])
   else []) ++
  (if c.security.rateLimitEnabled then
    ((if c.security.rateLimitRPS ≤ 0 then ["Rate limiting is enabled but RPS is not positive"] else []) ++
     (if c.security.rateLimitBurst ≤ 0 then ["Rate limiting is enabled but burst is not positive"] else []))
   else []) ++
  (if c.app.environment = "production" then validateProductionSecurity c else [])

/-! ### The load pipeline (`LoadConfig` / `ReloadConfig` / `GetConfig`) -/

/-- The ways `LoadConfig` can fail: `ini.Load` error, the aggregated
structural-validation error (carrying every finding), or a
`postValidationAdjustments` error (log-directory creation). -/
inductive LoadError where
  | fileLoad
  | validationFailed (violations : List (String × String))
  | postValidation
  deriving Repr, DecidableEq

/-- The external world a load observes: the `APP_ENV` process variable
(empty when unset), the parse result of `config.ini` (`none` when the
file is missing or unreadable), and whether creating the log directory
would succeed. -/
structure World where
  appEnv : String
  iniFile : Option Ini
  mkdirOk : Bool

/-- The module-level mutable state: the `instance` pointer
(`inst = none` models the nil pointer). -/
structure LoaderState where
  inst : Option Config
  deriving Repr, DecidableEq

/-- One run's observable outcome: the new state, the returned value or
error, and the advisory findings printed along the way. -/
structure LoadOutcome where
  state : LoaderState
  result : Except LoadError Config
  warnings : List String

/-- LoadConfig lines 34-38: the environment handed to
`NewEnvironmentValidator`, read from `APP_ENV` only, defaulting to
`development`. -/
def validatorEnv (w : World) : String :=
  if w.appEnv = "" then "development" else w.appEnv

/-- `postValidationAdjustments`: create the log directory when file
output is on (failure aborts), then derive the user agent when unset. -/
def postValidationAdjustments (w : World) (c : Config) : Except LoadError Config :=
  if (c.log.output = "file" ∨ c.log.output = "both") ∧ w.mkdirOk = false then
    .error .postValidation
  else
    .ok (if c.api.userAgent = "" then
      { c with api := { c.api with userAgent := c.app.name ++ "/" ++ c.app.version } }
    else c)

/-- `LoadConfig`: return the cached snapshot if present; otherwise parse
the source, build the sections, run structural validation (aborting with
the aggregate findings), report the advisory environment/security
findings, run post-validation adjustment, and publish the snapshot. -/
def loadConfig (st : LoaderState) (w : World) : LoadOutcome :=
  match st.inst with
  | some c => ⟨st, .ok c, []⟩
  | none =>
    match w.iniFile with
    | none => ⟨st, .error .fileLoad, []⟩
    | some src =>
      let cfg := buildConfig w.appEnv src
      let violations := validateConfig cfg
      if violations = [] then
        let envWarnings := validateEnvironment (validatorEnv w) cfg
        let secWarnings := validateSecuritySettings cfg
        match postValidationAdjustments w cfg with
        | .error e => ⟨st, .error e, envWarnings ++ secWarnings⟩
        | .ok cfg2 => ⟨⟨some cfg2⟩, .ok cfg2, envWarnings ++ secWarnings⟩
      else ⟨st, .error (.validationFailed violations), []⟩

/-- `ReloadConfig`: clear the instance, then run `LoadConfig` afresh. -/
def reloadConfig (_ : LoaderState) (w : World) : LoadOutcome :=
  loadConfig ⟨none⟩ w

/-- `GetConfig`: the current snapshot; `none` models the panic taken when
no load has succeeded. -/
def getConfig (st : LoaderState) : Option Config :=
  st.inst

/-- `GetPublicConfig` body: the projection built from a loaded config. -/
def getPublicConfig (c : Config) : PublicConfig :=
  { app := { environment := c.app.environment, name := c.app.name,
             version := c.app.version, debug := c.app.debug }
    api := { timeout := c.api.timeout, retryCount := c.api.retryCount }
    window := { width := c.window.width, height := c.window.height,
                resizable := c.window.resizable, fullscreen := c.window.fullscreen } }

/-! ### Security-default injection (`security.go`) -/

/-- The base64url alphabet of `encoding/base64.URLEncoding`. -/
def b64urlAlphabet : List Char :=
  "ABCDEFGHIJKLMNOPQRSTUVWXYZabcdefghijklmnopqrstuvwxyz0123456789-_".toList

/-- The alphabet character for a 6-bit group. -/
def b64Char (n : Nat) : Char :=
  b64urlAlphabet.getD (n % 64) 'A'

/-- `base64.URLEncoding.EncodeToString`: three bytes at a time into four
alphabet characters, with `=` padding for a trailing short group. -/
def base64urlEncode : List Nat → List Char
  | [] => []
  | [b1] => [b64Char (b1 / 4), b64Char (b1 % 4 * 16), '=', '=']
  | [b1, b2] => [b64Char (b1 / 4), b64Char (b1 % 4 * 16 + b2 / 16), b64Char (b2 % 16 * 4), '=']
  | b1 :: b2 :: b3 :: rest =>
    b64Char (b1 / 4) :: b64Char (b1 % 4 * 16 + b2 / 16) ::
    b64Char (b2 % 16 * 4 + b3 / 64) :: b64Char (b3 % 64) :: base64urlEncode rest

/-- `GenerateSecureSecret`: reject lengths under 16, fill `length` bytes
from the random source (modelled as the `randBytes` oracle, which never
fails), base64url-encode them and keep the first `length` characters
(Go slices the ASCII string by bytes, which is by characters here). -/
def generateSecureSecret (length : Nat) (randBytes : List Nat) : Except String String :=
  if length < 16 then .error "secret length must be at least 16 characters"
  else .ok (String.mk ((base64urlEncode (randBytes.take length)).take length))

/-- Production hardening, first step: force debug, dev-tools and
hot-reload off. -/
def hardenFlags (c : Config) : Config :=
  { c with app := { c.app with debug := false, devTools := false, hotReload := false } }

/-- Production hardening, second step: force rate limiting on with the
documented defaults when it was off. -/
def hardenRateLimit (c : Config) : Config :=
  if c.security.rateLimitEnabled = false then
    { c with security := { c.security with
        rateLimitEnabled := true, rateLimitRPS := 100, rateLimitBurst := 200 } }
  else c

/-- Production hardening, third step: upgrade database SSL from
`disable` to `require`. -/
def hardenSSL (c : Config) : Config :=
  if c.database.sslMode = "disable" then
    { c with database := { c.database with sslMode := "require" } }
  else c

/-- The production branch of `applySecurityDefaults`, in the order the
code applies the three steps. -/
def productionHardening (c1 : Config) : Config :=
  hardenSSL (hardenRateLimit (hardenFlags c1))

/-- `applySecurityDefaults`: generate a 64-character CSRF secret when
CSRF is enabled with no secret, then apply the production hardening when
the environment is production. -/
def applySecurityDefaults (c : Config) (randBytes : List Nat) : Except String Config :=
  let step1 : Except String Config :=
    if c.security.csrfEnabled ∧ c.security.csrfSecret = "" then
      match generateSecureSecret 64 randBytes with
      | .error e => .error e
      | .ok secret => .ok { c with security := { c.security with csrfSecret := secret } }
    else .ok c
  match step1 with
  | .error e => .error e
  | .ok c1 =>
    .ok (if c1.app.environment = "production" then productionHardening c1 else c1)

/-! ### Concrete scenario sources -/

/-- A source whose only explicit keys are a valid API base URL and three
independently invalid constrained fields: an out-of-range window width,
an out-of-range window height and an invalid log level. -/
def threeBadSrc : Ini :=
  [("api", "base_url", "http://localhost:8080"), ("window", "width", "10"),
   ("window", "height", "10"), ("log", "level", "verbose")]

/-- A source that explicitly sets `app.environment = staging` and an
otherwise-valid configuration. -/
def stagingSrc : Ini :=
  [("app", "environment", "staging"), ("api", "base_url", "http://localhost:8080")]

/-- The staging source seen with `APP_ENV` unset. -/
def stagingWorld : World :=
  ⟨"", some stagingSrc, true⟩

/-- A configuration with CSRF protection enabled and no secret
configured. -/
def csrfCfg : Config :=
  buildConfig "" [("security", "csrf_enabled", "true")]

/-! ### Helper lemmas -/

/-- A successful post-validation adjustment never changes the `App`
section (it only derives the API user agent). -/
theorem postValidationAdjustments_ok_app (w : World) (c c2 : Config)
    (h : postValidationAdjustments w c = .ok c2) : c2.app = c.app := by
  unfold postValidationAdjustments at h
  split at h
  · exact absurd h (by simp)
  · injection h with h2
    subst h2
    split <;> rfl

/-- Every error path of `loadConfig` leaves the loader state as it was. -/
theorem loadConfig_error_state (st : LoaderState) (w : World) (e : LoadError) :
    (loadConfig st w).result = .error e → (loadConfig st w).state = st := by
  unfold loadConfig
  cases st.inst with
  | some c => intro h; simp at h
  | none =>
    cases w.iniFile with
    | none => intro _; rfl
    | some src =>
      intro h
      by_cases hv : validateConfig (buildConfig w.appEnv src) = []
      · simp only [hv, if_true] at h ⊢
        cases hpv : postValidationAdjustments w (buildConfig w.appEnv src) with
        | error e2 => simp only [hpv]
        | ok c2 => rw [hpv] at h; simp at h
      · simp only [hv, if_false, reduceIte]

/-- The digit-accumulating fold never decreases. -/
theorem digitsFold_le : ∀ (l : List Char) (x : Nat),
    x ≤ l.foldl (fun a c => a * 10 + (c.toNat - 48)) x
  | [], _ => le_refl _
  | c :: t, x => by
    have h := digitsFold_le t (x * 10 + (c.toNat - 48))
    simp only [List.foldl_cons]
    omega

/-- `leadingInt` on a run of digits followed by a non-digit boundary
consumes exactly the digits and accumulates their value, provided the
final value stays below the overflow guard. -/
theorem leadingInt_digits : ∀ (ds rest : List Char) (x : Nat),
    (∀ ch ∈ ds, ch.isDigit = true) →
    (∀ ch ∈ rest.head?, ch.isDigit = false) →
    ds.foldl (fun a c => a * 10 + (c.toNat - 48)) x ≤ 922337203685477579 →
    leadingInt (ds ++ rest) x =
      some (ds.foldl (fun a c => a * 10 + (c.toNat - 48)) x, rest)
  | [], rest, x, _, hrest, _ => by
    simp only [List.nil_append, List.foldl_nil]
    cases rest with
    | nil => rfl
    | cons c r =>
      have hc : c.isDigit = false := hrest c (by simp)
      simp [leadingInt, hc]
  | c :: t, rest, x, hds, hrest, hb => by
    have hc : c.isDigit = true := hds c (by simp)
    simp only [List.foldl_cons] at hb ⊢
    have hmono := digitsFold_le t (x * 10 + (c.toNat - 48))
    have hrec := leadingInt_digits t rest (x * 10 + (c.toNat - 48))
      (fun ch h => hds ch (List.mem_cons_of_mem c h)) hrest hb
    simp only [List.cons_append, leadingInt, hc, if_true]
    rw [if_neg (by omega), if_neg (by omega)]
    exact hrec

/-- A nonzero fuel suffices for the loop to finish on the empty rest. -/
theorem parseDurationLoop_nil : ∀ (fuel d : Nat), fuel ≠ 0 →
    parseDurationLoop fuel [] d = some d
  | 0, _, h => absurd rfl h
  | _ + 1, _, _ => rfl

/-- A digit character is not a sign or a period. -/
theorem isDigit_not_special (c : Char) (h : c.isDigit = true) :
    c ≠ '-' ∧ c ≠ '+' ∧ c ≠ '.' := by
  refine ⟨?_, ?_, ?_⟩ <;> intro he <;> rw [he] at h <;> exact absurd h (by decide)

/-- `wrap64` is the identity inside the 64-bit signed range. -/
theorem wrap64_eq (n : Int) (h1 : -(2 ^ 63) ≤ n) (h2 : n < 2 ^ 63) : wrap64 n = n := by
  unfold wrap64
  omega

/-- One pass of the duration loop over `digits ++ "s"`: the digits
accumulate to their value, the unit `s` scales by `10^9`, and the loop
terminates on the empty remainder. -/
theorem parseDurationLoop_digits_s (c : Char) (t : List Char)
    (hdig : ∀ ch ∈ c :: t, ch.isDigit = true)
    (hbound : digitsVal (c :: t) ≤ 9223372036) :
    parseDurationLoop ((c :: (t ++ ['s'])).length + 1) (c :: (t ++ ['s'])) 0 =
      some (digitsVal (c :: t) * nsPerSecond) := by
  have hc : c.isDigit = true := hdig c (by simp)
  have hns : nsPerSecond = 1000000000 := rfl
  have h63 : (2 : Nat) ^ 63 = 9223372036854775808 := by norm_num
  have hli : leadingInt ((c :: t) ++ ['s']) 0 =
      some ((c :: t).foldl (fun a ch => a * 10 + (ch.toNat - 48)) 0, ['s']) := by
    apply leadingInt_digits
    · exact hdig
    · intro ch h
      simp at h
      subst h
      decide
    · exact le_trans hbound (by norm_num)
  simp only [List.cons_append] at hli
  have hfp : fractionPart ['s'] = (0, 1, ['s'], false) := rfl
  have hus : unitSplit ['s'] = (['s'], []) := rfl
  have huv : unitVal ['s'] = some nsPerSecond := rfl
  have hpre : (['s'].length != (c :: (t ++ ['s'])).length) = true := by
    simp [bne_iff_ne]
  have hfoldv : (c :: t).foldl (fun a ch => a * 10 + (ch.toNat - 48)) 0 =
      digitsVal (c :: t) := rfl
  have hdt : durationTerm (digitsVal (c :: t)) 0 1 nsPerSecond =
      some (digitsVal (c :: t) * nsPerSecond) := by
    unfold durationTerm
    rw [if_neg (by rw [hns, h63]; norm_num; omega)]
    rw [if_neg (by norm_num)]
  rw [parseDurationLoop]
  simp only [hli, hc, or_true, not_true_eq_false, ite_false, reduceIte, hfp, hus, huv,
    hpre, Bool.not_true, Bool.false_and, hfoldv, Bool.false_eq_true, List.isEmpty_cons, hdt]
  rw [if_neg (by rw [hns, h63]; omega)]
  rw [parseDurationLoop_nil _ _ (by simp)]
  rw [Nat.zero_add]

/-- `time.ParseDuration` accepts `digits ++ "s"` and yields the value in
nanoseconds whenever the second count fits the 64-bit range. -/
theorem goParseDuration_digits_s (ds : List Char)
    (hne : ds ≠ []) (hdig : ∀ ch ∈ ds, ch.isDigit = true)
    (hbound : digitsVal ds ≤ 9223372036) :
    goParseDuration (String.mk (ds ++ ['s'])) =
      some ((digitsVal ds * nsPerSecond : Nat) : Int) := by
  obtain ⟨c, t, rfl⟩ : ∃ c t, ds = c :: t := by
    cases ds with
    | nil => exact absurd rfl hne
    | cons c t => exact ⟨c, t, rfl⟩
  have hc : c.isDigit = true := hdig c (by simp)
  obtain ⟨hcm, hcp, hcd⟩ := isDigit_not_special c hc
  have hns : nsPerSecond = 1000000000 := rfl
  have h63 : (2 : Nat) ^ 63 = 9223372036854775808 := by norm_num
  unfold goParseDuration
  simp only [String.toList, List.cons_append, List.head?_cons, Option.some.injEq,
    hcm, hcp, or_self, ite_false, List.cons.injEq, List.append_eq_nil,
    List.cons_ne_nil, and_false, false_and, List.isEmpty_cons, Bool.false_eq_true,
    reduceIte]
  rw [parseDurationLoop_digits_s c t hdig hbound]
  have hle : ¬ digitsVal (c :: t) * nsPerSecond > 2 ^ 63 - 1 := by
    rw [hns, h63]
    omega
  simp [hle]
  rw [hns]
  omega

/-- `time.ParseDuration` rejects a bare digit string other than `"0"`
(no unit). -/
theorem goParseDuration_digits_bare (ds : List Char)
    (hne : ds ≠ []) (h0 : ds ≠ ['0']) (hdig : ∀ ch ∈ ds, ch.isDigit = true)
    (hbound : digitsVal ds ≤ 9223372036) :
    goParseDuration (String.mk ds) = none := by
  obtain ⟨c, t, rfl⟩ : ∃ c t, ds = c :: t := by
    cases ds with
    | nil => exact absurd rfl hne
    | cons c t => exact ⟨c, t, rfl⟩
  have hc : c.isDigit = true := hdig c (by simp)
  obtain ⟨hcm, hcp, hcd⟩ := isDigit_not_special c hc
  have hli : leadingInt ((c :: t) ++ []) 0 =
      some ((c :: t).foldl (fun a ch => a * 10 + (ch.toNat - 48)) 0, []) := by
    apply leadingInt_digits
    · exact hdig
    · intro ch h
      simp at h
    · exact le_trans hbound (by norm_num)
  simp only [List.append_nil] at hli
  have hfp : fractionPart [] = (0, 1, [], false) := rfl
  have hus : unitSplit [] = ([], []) := rfl
  unfold goParseDuration
  simp only [String.toList, List.head?_cons, Option.some.injEq, hcm, hcp, or_self,
    ite_false, reduceIte]
  rw [if_neg h0]
  rw [if_neg (by simp)]
  rw [parseDurationLoop]
  simp only [hli, hc, or_true, not_true_eq_false, ite_false, reduceIte, hfp, hus,
    List.isEmpty_nil, ite_self]

/-- `strconv.Atoi` on a digit string within the 64-bit range. -/
theorem goAtoi_digits (ds : List Char)
    (hne : ds ≠ []) (hdig : ∀ ch ∈ ds, ch.isDigit = true)
    (hbound : digitsVal ds ≤ 9223372036854775807) :
    goAtoi (String.mk ds) = some ((digitsVal ds : Nat) : Int) := by
  obtain ⟨c, t, rfl⟩ : ∃ c t, ds = c :: t := by
    cases ds with
    | nil => exact absurd rfl hne
    | cons c t => exact ⟨c, t, rfl⟩
  have hc : c.isDigit = true := hdig c (by simp)
  obtain ⟨hcm, hcp, hcd⟩ := isDigit_not_special c hc
  have hall : (c :: t).all Char.isDigit = true := by
    rw [List.all_eq_true]
    exact hdig
  have hle : ((digitsVal (c :: t) : Nat) : Int) ≤ 2 ^ 63 - 1 := by
    have : ((9223372036854775807 : Nat) : Int) = 2 ^ 63 - 1 := by norm_num
    omega
  unfold goAtoi
  simp only [String.toList, hcm, hcp, ite_false, reduceIte, List.isEmpty_cons,
    Bool.false_eq_true, hall, if_true, if_pos hle]

/-- A string built from a nonempty character list is not the empty
string. -/
theorem mk_ne_empty (l : List Char) (hl : l ≠ []) : String.mk l ≠ "" := by
  intro h
  apply hl
  have h2 : (String.mk l).data = ("" : String).data := by rw [h]
  simpa using h2

/-- Value-level statement behind the claim: the suffixed form `"Ns"` and
the bare form `"N"` both resolve to `N` seconds, for any digit string
whose second count fits the 64-bit nanosecond range. -/
theorem resolveDuration_digits (ds : List Char) (dflt : Int)
    (hne : ds ≠ []) (hdig : ∀ ch ∈ ds, ch.isDigit = true)
    (hbound : digitsVal ds ≤ 9223372036) :
    resolveDuration (String.mk (ds ++ ['s'])) dflt =
      ((digitsVal ds * nsPerSecond : Nat) : Int) ∧
    resolveDuration (String.mk ds) dflt =
      ((digitsVal ds * nsPerSecond : Nat) : Int) := by
  have hns : nsPerSecond = 1000000000 := rfl
  constructor
  · unfold resolveDuration
    rw [if_neg (mk_ne_empty _ (by simp))]
    rw [goParseDuration_digits_s ds hne hdig hbound]
  · unfold resolveDuration
    rw [if_neg (mk_ne_empty _ hne)]
    by_cases hd0 : ds = ['0']
    · subst hd0
      rfl
    · rw [goParseDuration_digits_bare ds hne hd0 hdig hbound]
      rw [goAtoi_digits ds hne hdig (le_trans hbound (by norm_num))]
      show wrap64 (((digitsVal ds : Nat) : Int) * ((nsPerSecond : Nat) : Int)) =
        ((digitsVal ds * nsPerSecond : Nat) : Int)
      rw [wrap64_eq]
      · push_cast
        ring
      · have h63n : ((2 : Int) ^ 63) = 9223372036854775808 := by norm_num
        rw [hns, h63n]
        push_cast
        omega
      · have h63 : ((2 : Int) ^ 63) = 9223372036854775808 := by norm_num
        rw [h63, hns]
        push_cast
        omega

/-- Each base64url character comes from the 64-character alphabet. -/
theorem b64Char_mem (n : Nat) : b64Char n ∈ b64urlAlphabet := by
  have h64 : b64urlAlphabet.length = 64 := by decide
  have h : n % 64 < b64urlAlphabet.length := by
    rw [h64]
    exact Nat.mod_lt _ (by norm_num)
  unfold b64Char
  rw [List.getD_eq_getElem _ _ h]
  exact List.getElem_mem h

/-- The base64url encoding of `n` bytes has `⌈n/3⌉ * 4` characters. -/
theorem base64urlEncode_length : ∀ bs : List Nat,
    (base64urlEncode bs).length = ((bs.length + 2) / 3) * 4
  | [] => rfl
  | [_] => by norm_num [base64urlEncode]
  | [_, _] => by norm_num [base64urlEncode]
  | _ :: _ :: _ :: rest => by
    simp only [base64urlEncode, List.length_cons, base64urlEncode_length rest]
    omega

/-- Encoding distributes over an append whose first part is a whole
number of 3-byte groups. -/
theorem base64urlEncode_append : ∀ xs ys : List Nat, xs.length % 3 = 0 →
    base64urlEncode (xs ++ ys) = base64urlEncode xs ++ base64urlEncode ys
  | [], _, _ => rfl
  | [_], _, h => by simp at h
  | [_, _], _, h => by simp at h
  | b1 :: b2 :: b3 :: rest, ys, h => by
    have h3 : rest.length % 3 = 0 := by
      simp only [List.length_cons] at h
      omega
    simp only [List.cons_append, base64urlEncode, List.append_eq,
      base64urlEncode_append rest ys h3]

/-- Every character of the encoding of a whole number of 3-byte groups
is an alphabet character (no padding appears). -/
theorem base64urlEncode_mem : ∀ bs : List Nat, bs.length % 3 = 0 →
    ∀ ch ∈ base64urlEncode bs, ch ∈ b64urlAlphabet
  | [], _, ch, hch => by simp [base64urlEncode] at hch
  | [_], _, _, _ => by simp_all
  | [_, _], h, _, _ => by simp at h
  | b1 :: b2 :: b3 :: rest, h, ch, hch => by
    have h3 : rest.length % 3 = 0 := by
      simp only [List.length_cons] at h
      omega
    simp only [base64urlEncode, List.mem_cons] at hch
    rcases hch with rfl | rfl | rfl | rfl | hch
    · exact b64Char_mem _
    · exact b64Char_mem _
    · exact b64Char_mem _
    · exact b64Char_mem _
    · exact base64urlEncode_mem rest h3 ch hch

/-- Production hardening never touches the CSRF secret. -/
theorem productionHardening_secret (c : Config) :
    (productionHardening c).security.csrfSecret = c.security.csrfSecret := by
  unfold productionHardening hardenSSL hardenRateLimit hardenFlags
  split <;> split <;> rfl

/-! ### Theorems -/

/-- C1 (counterexample): loading with an empty configuration source
(file present, no keys) and `APP_ENV` unset does NOT succeed: the code
returns the aggregated structural-validation error, because the
documented default for `api.base_url` is the empty string while the
field is tagged `required`. -/
theorem c1_counterexample :
    (loadConfig ⟨none⟩ ⟨"", some [], true⟩).result =
      .error (.validationFailed [("API.BaseURL", "required")]) := by
  rfl

/-- C1 (amended): with an empty source and `APP_ENV` unset, every field
resolves to its documented default — in particular Environment is
"development", debug is true and dev-tools is true — but `Load()` then
aborts in structural validation with exactly the finding that the
(empty) API base URL is required, rather than succeeding. -/
theorem c1_empty_source_defaults :
    buildConfig "" [] =
      { app := { environment := "development", name := "CSmart Wails App", version := "1.0.0",
                 debug := true, hotReload := true, devTools := true, mockAPI := false }
        api := { baseURL := "", timeout := 30 * nsPerSecond, retryCount := 3,
                 retryDelay := 1 * nsPerSecond, userAgent := "CSmart-Wails/1.0", maxIdleConn := 10 }
        auth := { tokenExpiry := 3600 * nsPerSecond, refreshThreshold := 300 * nsPerSecond,
                  maxLoginAttempts := 5, lockoutDuration := 15 * nsPerMinute,
                  sessionTimeout := 24 * nsPerHour, rememberMeDuration := 720 * nsPerHour }
        log := { level := "debug", format := "json", output := "console",
                 filePath := "logs/app.log", maxSize := 100, maxBackups := 3, maxAge := 28,
                 compress := true }
        database := { host := "localhost", port := 5432, name := "csmart", username := "",
                      password := "", sslMode := "disable", maxOpenConns := 25,
                      maxIdleConns := 5, connLifetime := 5 * nsPerMinute }
        security := { corsEnabled := true, corsOrigins := [], rateLimitEnabled := false,
                      rateLimitRPS := 100, rateLimitBurst := 200, csrfEnabled := false,
                      csrfSecret := "" }
        window := { width := 1200, height := 800, resizable := true, fullscreen := false,
                    maximized := false, minimized := false, alwaysOnTop := false }
        cache := { enabled := false, ttl := 3600 * nsPerSecond, maxSize := 100,
                   maxItems := 10000, compressionEnabled := false, evictionPolicy := "lru" } } ∧
    (loadConfig ⟨none⟩ ⟨"", some [], true⟩).result =
      .error (.validationFailed [("API.BaseURL", "required")]) := by
  exact ⟨by decide, by rfl⟩

/-- C2 (counterexample): a previously published snapshot is NOT left
untouched by every rerun of the pipeline: `ReloadConfig` clears the
instance before reloading, so a reload against a missing source file
both fails and loses the prior snapshot — `GetConfig` afterwards is in
the unloaded (panic) state instead of returning the old snapshot. -/
theorem c2_counterexample :
    (reloadConfig ⟨some (buildConfig "" [])⟩ ⟨"", none, true⟩).result = .error .fileLoad ∧
    getConfig (reloadConfig ⟨some (buildConfig "" [])⟩ ⟨"", none, true⟩).state = none := by
  exact ⟨rfl, rfl⟩

/-- C2 (amended): whenever `LoadConfig` itself returns an error the
loader state — hence the snapshot `GetConfig` serves — is exactly what it
was before the call; but `ReloadConfig` first discards the previous
snapshot, so a failed reload leaves the loader with no snapshot at all
rather than the prior one. -/
theorem c2_load_error_preserves_snapshot :
    (∀ (st : LoaderState) (w : World) (e : LoadError),
      (loadConfig st w).result = .error e → (loadConfig st w).state = st) ∧
    (∀ (st : LoaderState) (w : World) (e : LoadError),
      (reloadConfig st w).result = .error e → (reloadConfig st w).state = ⟨none⟩) :=
  ⟨fun st w e h => loadConfig_error_state st w e h,
   fun _ w e h => loadConfig_error_state ⟨none⟩ w e h⟩

/-- C2 (witness): instantiating the first part at a fresh loader state
and a world whose source file is missing. -/
theorem c2_load_error_preserves_snapshot_witness :
    (loadConfig ⟨none⟩ ⟨"", none, true⟩).result = .error .fileLoad ∧
    (loadConfig ⟨none⟩ ⟨"", none, true⟩).state = ⟨none⟩ :=
  ⟨rfl, c2_load_error_preserves_snapshot.1 ⟨none⟩ ⟨"", none, true⟩ .fileLoad rfl⟩

/-- C3 (counterexample): an environment explicitly present in the
configuration source does NOT take precedence over the external
variable: with `APP_ENV=production` and the source setting
`app.environment = staging`, the resolved environment is "production",
not the source's "staging". -/
theorem c3_counterexample :
    (loadAppConfig "production" [("app", "environment", "staging")]).environment = "production" ∧
    (loadAppConfig "production" [("app", "environment", "staging")]).environment ≠ "staging" := by
  exact ⟨rfl, by decide⟩

/-- C3 (amended): precedence is the reverse of the claim — a non-empty
`APP_ENV` always determines the resolved environment; the source's
`app.environment` value is consulted only when the variable is absent or
empty, and "development" is the default when both are empty. -/
theorem c3_env_precedence (appEnv : String) (src : Ini) :
    (appEnv ≠ "" → (loadAppConfig appEnv src).environment = appEnv) ∧
    (appEnv = "" → (loadAppConfig appEnv src).environment =
      (if iniString src "app" "environment" = "" then "development"
       else iniString src "app" "environment")) := by
  constructor
  · intro h
    simp [loadAppConfig, h]
  · intro h
    simp [loadAppConfig, h, getConfigValue]

/-- C3 (witness): the amended precedence at concrete inputs — a set
variable wins over the source; an unset variable with an empty source
yields "development". -/
theorem c3_env_precedence_witness :
    (loadAppConfig "production" [("app", "environment", "staging")]).environment = "production" ∧
    (loadAppConfig "" []).environment = "development" :=
  ⟨(c3_env_precedence "production" [("app", "environment", "staging")]).1 (by decide),
   by have h := (c3_env_precedence "" []).2 rfl; simpa using h⟩

/-- C4 (confirmed): whenever CSRF protection is enabled and the secret
is empty, security-default injection succeeds and substitutes into the
configuration a secret that is the base64url encoding of 48 bytes drawn
from the random source — hence non-empty, 64 (≥ 32) characters long, and
made only of base64url alphabet characters. -/
theorem c4_csrf_secret_injection (c : Config) (rand : List Nat)
    (hen : c.security.csrfEnabled = true) (hsec : c.security.csrfSecret = "")
    (hlen : rand.length = 64) :
    ∃ c2 : Config, applySecurityDefaults c rand = .ok c2 ∧
      c2.security.csrfSecret = String.mk (base64urlEncode (rand.take 48)) ∧
      c2.security.csrfSecret ≠ "" ∧
      32 ≤ c2.security.csrfSecret.length ∧
      ∀ ch ∈ c2.security.csrfSecret.toList, ch ∈ b64urlAlphabet := by
  have htake48 : (rand.take 48).length = 48 := by
    rw [List.length_take]
    omega
  have henc : base64urlEncode rand =
      base64urlEncode (rand.take 48) ++ base64urlEncode (rand.drop 48) := by
    conv_lhs => rw [← List.take_append_drop 48 rand]
    exact base64urlEncode_append _ _ (by rw [htake48])
  have hlen48 : (base64urlEncode (rand.take 48)).length = 64 := by
    rw [base64urlEncode_length, htake48]
  have htake64 : (base64urlEncode rand).take 64 = base64urlEncode (rand.take 48) := by
    rw [henc, ← hlen48, List.take_left]
  have hrand64 : rand.take 64 = rand := List.take_of_length_le (by omega)
  have hgen : generateSecureSecret 64 rand =
      .ok (String.mk (base64urlEncode (rand.take 48))) := by
    unfold generateSecureSecret
    rw [if_neg (by norm_num), hrand64, htake64]
  have hmklen : ∀ cs : List Char, (String.mk cs).length = cs.length := fun _ => rfl
  have hcond : (c.security.csrfEnabled = true) ∧ c.security.csrfSecret = "" := ⟨hen, hsec⟩
  unfold applySecurityDefaults
  rw [if_pos hcond, hgen]
  dsimp only
  have hs2 : (if ({ c with security := { c.security with
        csrfSecret := String.mk (base64urlEncode (rand.take 48)) } } : Config).app.environment =
          "production" then
        productionHardening { c with security := { c.security with
          csrfSecret := String.mk (base64urlEncode (rand.take 48)) } }
      else { c with security := { c.security with
          csrfSecret := String.mk (base64urlEncode (rand.take 48)) } }).security.csrfSecret =
      String.mk (base64urlEncode (rand.take 48)) := by
    split
    · rw [productionHardening_secret]
    · rfl
  refine ⟨_, rfl, hs2, ?_, ?_, ?_⟩
  · rw [hs2]
    intro heq
    have h0 := congrArg String.length heq
    rw [hmklen] at h0
    rw [hlen48] at h0
    simp at h0
  · rw [hs2, hmklen, hlen48]
    norm_num
  · rw [hs2]
    intro ch hch
    exact base64urlEncode_mem (rand.take 48) (by rw [htake48]) ch hch

/-- C4 (witness): the injection applied to a configuration with CSRF
enabled, no secret, and a concrete 64-byte random draw. -/
theorem c4_csrf_secret_injection_witness :
    csrfCfg.security.csrfEnabled = true ∧ csrfCfg.security.csrfSecret = "" ∧
    (List.replicate 64 0).length = 64 ∧
    (∃ c2 : Config, applySecurityDefaults csrfCfg (List.replicate 64 0) = .ok c2 ∧
      c2.security.csrfSecret = String.mk (base64urlEncode ((List.replicate 64 0).take 48)) ∧
      c2.security.csrfSecret ≠ "" ∧
      32 ≤ c2.security.csrfSecret.length ∧
      ∀ ch ∈ c2.security.csrfSecret.toList, ch ∈ b64urlAlphabet) :=
  ⟨rfl, rfl, by simp,
   c4_csrf_secret_injection csrfCfg (List.replicate 64 0) rfl rfl (by simp)⟩

/-- C5 (confirmed): whenever structural validation produces findings,
`Load()` aborts with a single aggregated error carrying the complete
list of findings — and on the concrete source with three independently
invalid constrained fields the one returned error names all three
(invalid log level, out-of-range width, out-of-range height). -/
theorem c5_validation_errors_aggregated :
    (∀ (w : World) (src : Ini), w.iniFile = some src →
      validateConfig (buildConfig w.appEnv src) ≠ [] →
      (loadConfig ⟨none⟩ w).result =
        .error (.validationFailed (validateConfig (buildConfig w.appEnv src)))) ∧
    (loadConfig ⟨none⟩ ⟨"", some threeBadSrc, true⟩).result =
      .error (.validationFailed
        [("Log.Level", "oneof"), ("Window.Width", "min"), ("Window.Height", "min")]) := by
  constructor
  · intro w src hini hv
    unfold loadConfig
    rw [hini]
    simp only [if_neg hv]
  · rfl

/-- C5 (witness): the universally quantified part instantiated at the
three-bad-fields source. -/
theorem c5_validation_errors_aggregated_witness :
    (loadConfig ⟨none⟩ ⟨"", some threeBadSrc, true⟩).result =
      .error (.validationFailed (validateConfig (buildConfig "" threeBadSrc))) :=
  c5_validation_errors_aggregated.1 ⟨"", some threeBadSrc, true⟩ threeBadSrc rfl (by decide)

/-- C10 (confirmed): with the external variable unset or empty, the
environment handed to the policy validator is always "development" — the
development checks are the ones that run — while a successfully
published snapshot records the source's own `app.environment` value, so
the two can differ. -/
theorem c10_validator_env_vs_published_env :
    (∀ w : World, w.appEnv = "" → validatorEnv w = "development") ∧
    (∀ (w : World) (src : Ini) (cfg : Config), w.appEnv = "" → w.iniFile = some src →
      (loadConfig ⟨none⟩ w).result = .ok cfg →
      cfg.app.environment = getConfigValue src "app" "environment" "development" ∧
      (loadConfig ⟨none⟩ w).warnings =
        validateEnvironment "development" (buildConfig "" src) ++
          validateSecuritySettings (buildConfig "" src)) := by
  constructor
  · intro w h
    unfold validatorEnv
    rw [h]
    rfl
  · intro w src cfg happ hini hres
    have hv : validatorEnv w = "development" := by
      unfold validatorEnv; rw [happ]; rfl
    unfold loadConfig at hres ⊢
    rw [hini] at hres ⊢
    by_cases hval : validateConfig (buildConfig w.appEnv src) = []
    · simp only [hval, if_true] at hres ⊢
      cases hpv : postValidationAdjustments w (buildConfig w.appEnv src) with
      | error e2 => rw [hpv] at hres; simp at hres
      | ok c2 =>
        rw [hpv] at hres
        simp only [Except.ok.injEq] at hres
        subst hres
        have happ2 := postValidationAdjustments_ok_app w _ _ hpv
        constructor
        · rw [happ2, happ]
          rfl
        · simp only [hv, happ]
    · simp only [if_neg hval] at hres
      simp at hres

/-- C10 (witness): with `APP_ENV` unset and the source naming "staging",
the load succeeds, the policy validator ran with "development", and the
published environment is the source's "staging" — the two differ. -/
theorem c10_validator_env_vs_published_env_witness :
    validatorEnv stagingWorld = "development" ∧
    (buildConfig "" stagingSrc).app.environment =
      getConfigValue stagingSrc "app" "environment" "development" ∧
    getConfigValue stagingSrc "app" "environment" "development" = "staging" :=
  ⟨c10_validator_env_vs_published_env.1 stagingWorld rfl,
   (c10_validator_env_vs_published_env.2 stagingWorld stagingSrc
      (buildConfig "" stagingSrc) rfl rfl (by rfl)).1,
   rfl⟩

/-- C6 (counterexample): the suffixed and bare forms do NOT agree for
every non-negative integer: at N = 10000000000 the suffixed form
overflows `time.ParseDuration` and falls back to the field default,
while the bare form multiplies into 64-bit wrap-around, giving a
negative duration — the two resolved values differ. -/
theorem c6_counterexample :
    resolveDuration "10000000000s" (30 * (nsPerSecond : Int)) = 30 * (nsPerSecond : Int) ∧
    resolveDuration "10000000000" (30 * (nsPerSecond : Int)) = -8446744073709551616 ∧
    resolveDuration "10000000000s" (30 * (nsPerSecond : Int)) ≠
      resolveDuration "10000000000" (30 * (nsPerSecond : Int)) := by
  refine ⟨by decide, by decide, by decide⟩

/-- C6 (amended): for every duration field and every non-negative
integer N that fits the signed 64-bit nanosecond representation
(N ≤ 9223372036 seconds), resolving the field from `"Ns"` and from the
bare string `"N"` produce the same duration, namely N seconds; beyond
that bound the two forms diverge. -/
theorem c6_duration_seconds_equivalence (src1 src2 : Ini) (sect key : String)
    (dflt : Int) (ds : List Char)
    (hne : ds ≠ []) (hdig : ∀ ch ∈ ds, ch.isDigit = true)
    (hbound : digitsVal ds ≤ 9223372036)
    (h1 : iniString src1 sect key = String.mk (ds ++ ['s']))
    (h2 : iniString src2 sect key = String.mk ds) :
    getConfigDuration src1 sect key dflt = ((digitsVal ds * nsPerSecond : Nat) : Int) ∧
    getConfigDuration src2 sect key dflt = ((digitsVal ds * nsPerSecond : Nat) : Int) := by
  unfold getConfigDuration
  rw [h1, h2]
  exact resolveDuration_digits ds dflt hne hdig hbound

/-- C6 (witness): `timeout = 30s` and `timeout = 30` resolve to the same
30-second duration. -/
theorem c6_duration_seconds_equivalence_witness :
    getConfigDuration [("api", "timeout", "30s")] "api" "timeout" 42 =
      ((30 * nsPerSecond : Nat) : Int) ∧
    getConfigDuration [("api", "timeout", "30")] "api" "timeout" 42 =
      ((30 * nsPerSecond : Nat) : Int) :=
  c6_duration_seconds_equivalence [("api", "timeout", "30s")] [("api", "timeout", "30")]
    "api" "timeout" 42 ['3', '0'] (by decide) (by decide) (by decide) (by decide) (by decide)

/-- C7 (confirmed): when a snapshot already exists, `LoadConfig` returns
it unchanged without running any stage of the pipeline — the state is
untouched, no findings are produced, and the result is the cached
snapshot, whatever the source file or environment variable now say. -/
theorem c7_load_idempotent (st : LoaderState) (c : Config) (w : World)
    (h : st.inst = some c) :
    loadConfig st w = ⟨st, .ok c, []⟩ := by
  unfold loadConfig
  rw [h]

/-- C7 (witness): two consecutive loads with different worlds both
return the snapshot cached by the first. -/
theorem c7_load_idempotent_witness :
    loadConfig ⟨some (buildConfig "" [])⟩ ⟨"production", none, false⟩ =
      ⟨⟨some (buildConfig "" [])⟩, .ok (buildConfig "" []), []⟩ :=
  c7_load_idempotent ⟨some (buildConfig "" [])⟩ (buildConfig "" []) ⟨"production", none, false⟩ rfl

/-- C8 (confirmed): the comma-separated origins list is resolved by
splitting on commas and trimming each element, the empty string
producing the empty list; in particular
`cors_origins = http://a.test:1, http://b.test:2 ` yields exactly the
two trimmed entries. -/
theorem c8_cors_origins_parsing :
    (∀ src : Ini, (loadSecurityConfig src).corsOrigins =
      (if iniString src "security" "cors_origins" = "" then []
       else (goSplit ',' (iniString src "security" "cors_origins")).map goTrimSpace)) ∧
    (loadSecurityConfig [("security", "cors_origins", "http://a.test:1, http://b.test:2 ")]).corsOrigins =
      ["http://a.test:1", "http://b.test:2"] := by
  constructor
  · intro src
    simp only [loadSecurityConfig, getConfigValue]
    split
    · simp_all
    · simp_all
  · decide

/-- C9 (confirmed): the public projection carries exactly the
whitelisted fields (app name/version/environment/debug, API
timeout/retry count, window width/height/resizable/fullscreen) and is
unchanged under arbitrary replacement of the database password,
username, host, port, name, SSL mode and the CSRF secret — so no
credential or secret ever reaches it. -/
theorem c9_public_projection :
    (∀ c : Config, getPublicConfig c =
      { app := { environment := c.app.environment, name := c.app.name,
                 version := c.app.version, debug := c.app.debug }
        api := { timeout := c.api.timeout, retryCount := c.api.retryCount }
        window := { width := c.window.width, height := c.window.height,
                    resizable := c.window.resizable, fullscreen := c.window.fullscreen } }) ∧
    (∀ (c : Config) (pw un hs nm sslm secret : String) (pt : Int),
      getPublicConfig
        { c with
          database := { c.database with
            password := pw
            username := un
            host := hs
            port := pt
            name := nm
            sslMode := sslm }
          security := { c.security with csrfSecret := secret } } =
      getPublicConfig c) := by
  exact ⟨fun c => rfl, fun c pw un hs nm sslm secret pt => rfl⟩

end WailsCfg
